import Mathlib

/-!
A verification development for the `text-to-audio` repository: a thin
Streamlit orchestration layer that extracts text from raw text, PDFs or
URLs, optionally rewrites it with a hosted language model, and synthesizes
speech through the Azure text-to-speech service.

The only executable code in the source tree is the notebook
`src/notebooks/test-tts.ipynb`; the application modules named by the
README (`app.py`, `service.py`, `audio_processor.py`, `text_processor.py`,
`llm_client.py`) are absent.  The notebook is embedded directly; the
missing application modules are modelled from the specification, each such
definition carrying a doc comment that starts with `Modelled from the
spec:` and names the missing module.
-/

/-- Audio payloads are modelled as lists of byte values. -/
abbrev AudioBytes := List Nat

/- ## Embedding of `src/notebooks/test-tts.ipynb`

The notebook's single code cell:
```
load_dotenv("../.env")
speech_config = speechsdk.SpeechConfig(subscription=os.getenv("AZURE_SPEECH_KEY"),
                                       region=os.getenv("AZURE_SPEECH_REGION"))
speech_config.speech_synthesis_voice_name = "en-US-JennyNeural"
synthesizer = speechsdk.SpeechSynthesizer(speech_config=speech_config,
    audio_config=speechsdk.audio.AudioOutputConfig(filename="output.wav"))
synthesizer.speak_text_async("This is a test of Azure TTS.").get()
```
-/

/-- The environment variables the notebook reads with `os.getenv`:
`None` models an unset variable. -/
structure NotebookEnv where
  azureSpeechKey : Option String
  azureSpeechRegion : Option String
  deriving DecidableEq

/-- The `speechsdk.SpeechConfig` object as the notebook leaves it after the
assignment `speech_config.speech_synthesis_voice_name = "en-US-JennyNeural"`. -/
structure SpeechConfigState where
  subscription : Option String
  region : Option String
  speech_synthesis_voice_name : Option String
  deriving DecidableEq

/-- The `speech_config` value built by the notebook from the environment:
`SpeechConfig(subscription=os.getenv("AZURE_SPEECH_KEY"),
region=os.getenv("AZURE_SPEECH_REGION"))` followed by the voice-name
assignment. -/
def notebookSpeechConfig (env : NotebookEnv) : SpeechConfigState :=
  { subscription := env.azureSpeechKey
    region := env.azureSpeechRegion
    speech_synthesis_voice_name := some "en-US-JennyNeural" }

/-- One call to the speech service as issued by a `SpeechSynthesizer`:
the text spoken, the configured voice, the configured rate (`none` when no
rate or SSML prosody is set), and the file name from `AudioOutputConfig`. -/
structure SynthCall where
  text : String
  voice : Option String
  rate : Option Int
  outputFile : String
  deriving DecidableEq

/-- The single synthesis call the notebook issues:
`synthesizer.speak_text_async("This is a test of Azure TTS.").get()` on a
synthesizer whose `audio_config` is `AudioOutputConfig(filename="output.wav")`.
The notebook sets no speech rate and uses no SSML. -/
def notebookSynthCall (env : NotebookEnv) : SynthCall :=
  { text := "This is a test of Azure TTS."
    voice := (notebookSpeechConfig env).speech_synthesis_voice_name
    rate := none
    outputFile := "output.wav" }

/-- The outcome of a speech-synthesis call, as carried by the
`SpeechSynthesisResult` that `speak_text_async(...).get()` returns: the
Azure SDK reports cancellation (auth failure, network failure, quota)
through the result object rather than by raising. -/
inductive SynthOutcome
  | completed (audio : AudioBytes)
  | canceled (reason : String)
  deriving DecidableEq

/-- `.get()` on the future returned by `speak_text_async`: it returns the
`SpeechSynthesisResult` and raises nothing, whatever the outcome. -/
def speakTextAsyncGet (r : SynthOutcome) : SynthOutcome := r

/-- The observable state the notebook cell leaves behind. -/
structure NotebookRunState where
  filesOnDisk : List String
  deriving DecidableEq

/-- The last statement of the notebook cell, as a function of the
service's outcome for the call.  In Python an expression statement
evaluates the expression and discards its value, so the
`SpeechSynthesisResult` is never bound or inspected; `.ok` is the absence
of a raised exception.  `AudioOutputConfig(filename="output.wav")` created
the output file when the synthesizer was constructed, so it is on disk
whatever the outcome. -/
def notebookCell (r : SynthOutcome) : Except String NotebookRunState :=
  let _result := speakTextAsyncGet r
  .ok { filesOnDisk := ["output.wav"] }

/- ## Spec-modelled application pipeline

The README's application modules (`app.py`, `service.py`,
`audio_processor.py`, `text_processor.py`, `llm_client.py`) are not in the
source tree; everything below is modelled from the specification. -/

/-- The specification's error taxonomy (spec §7): configuration,
extraction, external-service (language model), synthesis and output-file
errors, each with a human-readable message. -/
inductive PipelineError
  | configurationError (msg : String)
  | extractionError (msg : String)
  | externalServiceError (msg : String)
  | synthesisError (msg : String)
  | outputFileError (msg : String)
  deriving DecidableEq

/-- The pipeline stages an error can be tagged with. -/
inductive Stage
  | configuration
  | extraction
  | optimization
  | synthesis
  | output
  deriving DecidableEq

/-- The stage an error identifies (spec §7: the orchestration surfaces the
first error "with a human-readable message identifying the stage"). -/
def PipelineError.stage : PipelineError → Stage
  | .configurationError _ => .configuration
  | .extractionError _ => .extraction
  | .externalServiceError _ => .optimization
  | .synthesisError _ => .synthesis
  | .outputFileError _ => .output

/-- A PDF as the extractor sees it: either unreadable bytes or a list of
per-page extracted texts. -/
inductive PdfFile
  | corrupt
  | pages (ps : List String)
  deriving DecidableEq

/-- The input payload (spec §3): a tagged union of raw text, uploaded PDF
bytes, and a URL string. -/
inductive InputPayload
  | rawText (s : String)
  | pdf (f : PdfFile)
  | url (u : String)
  deriving DecidableEq

/-- Modelled from the spec: the Text Extractor (`text_processor.py`,
absent from the source tree; spec §2, §4.1).  Raw text passes through;
for PDFs the per-page texts are concatenated; for URLs the page is
fetched and its main textual content returned.  `web` models the outbound
fetch: `none` is an unreachable URL.  Unreadable sources (corrupt PDF,
unreachable URL, no textual content) fail with an `extractionError`. -/
def extractText (web : String → Option String) :
    InputPayload → Except PipelineError String
  | .rawText s =>
      if s = "" then .error (.extractionError "empty text input") else .ok s
  | .pdf .corrupt => .error (.extractionError "corrupt PDF bytes")
  | .pdf (.pages ps) =>
      let t := String.join ps
      if t = "" then .error (.extractionError "no extractable text in PDF")
      else .ok t
  | .url u =>
      match web u with
      | none => .error (.extractionError "unreachable URL")
      | some body =>
          if body = "" then .error (.extractionError "no textual content")
          else .ok body

/-- Well-formedness of an input payload (spec §8): raw text that is not
empty, a readable PDF with some extractable text, or a reachable URL with
textual content. -/
def wellFormedInput (web : String → Option String) : InputPayload → Bool
  | .rawText s => s ≠ ""
  | .pdf .corrupt => false
  | .pdf (.pages ps) => String.join ps ≠ ""
  | .url u =>
      match web u with
      | none => false
      | some body => body ≠ ""

/-- The character for a single decimal digit. -/
def digitChar : Nat → Char
  | 0 => '0'
  | 1 => '1'
  | 2 => '2'
  | 3 => '3'
  | 4 => '4'
  | 5 => '5'
  | 6 => '6'
  | 7 => '7'
  | 8 => '8'
  | _ => '9'

/-- Decimal rendering of a natural number from its little-endian digit
list (`Nat.digits 10 n`), most significant digit first. -/
def decimalString (n : Nat) : String :=
  ((Nat.digits 10 n).reverse.map digitChar).asString

/-- Modelled from the spec: the per-request output file name
(`audio_processor.py`, absent from the source tree; spec §3, §5: output
files are "named deterministically or with a generated identifier" and
"writes use distinct file names per request").  Each request carries a
fresh numeric identifier rendered into the name. -/
def audioFileName (requestId : Nat) : String :=
  "audio_" ++ decimalString requestId ++ ".wav"

/-- A file write performed by the synthesizer: the path written and the
bytes written there. -/
structure FileWrite where
  path : String
  contents : AudioBytes
  deriving DecidableEq

/-- Modelled from the spec: the Speech Synthesizer (`audio_processor.py`,
absent from the source tree; spec §2, §4.3).  `svc` models the cloud
text-to-speech service: given text, voice and rate it returns audio bytes
or a service/auth/network failure message.  On success the received bytes
are written to a file under the output directory and its path returned;
on failure the step fails with a `synthesisError` and writes nothing. -/
def synthesizeAudio (svc : String → String → Int → Except String AudioBytes)
    (outputDir : String) (requestId : Nat)
    (text voice : String) (rate : Int) :
    Except PipelineError String × List FileWrite :=
  match svc text voice rate with
  | .error msg => (.error (.synthesisError msg), [])
  | .ok bytes =>
      let path := outputDir ++ "/" ++ audioFileName requestId
      (.ok path, [⟨path, bytes⟩])

/-- One step of the pipeline as the orchestration invokes it, with the
arguments it was invoked on. -/
inductive PipelineEvent
  | extractCall (input : InputPayload)
  | optimizeCall (text : String)
  | synthCall (text voice : String) (rate : Int)
  deriving DecidableEq

/-- The stage a pipeline event belongs to. -/
def PipelineEvent.eventStage : PipelineEvent → Stage
  | .extractCall _ => .extraction
  | .optimizeCall _ => .optimization
  | .synthCall _ _ _ => .synthesis

/-- One full conversion request (spec §4.4): the input payload, the
optimize flag, and the user-chosen voice identifier and speech-rate
scalar. -/
structure ConversionRequest where
  input : InputPayload
  optimize : Bool
  voice : String
  rate : Int

/-- Modelled from the spec: the Orchestration Service (`service.py`,
absent from the source tree; spec §4.4).  It calls the Extractor, then —
only when the optimize flag is set — the Optimizer, then the Synthesizer,
in that fixed sequence, stopping at the first failure; it returns the
final result together with the list of steps it invoked, in order. -/
def orchestrate (extract : InputPayload → Except PipelineError String)
    (optimizeText : String → Except PipelineError String)
    (synthesize : String → String → Int → Except PipelineError String)
    (req : ConversionRequest) :
    Except PipelineError String × List PipelineEvent :=
  match extract req.input with
  | .error e => (.error e, [.extractCall req.input])
  | .ok extracted =>
      if req.optimize then
        match optimizeText extracted with
        | .error e =>
            (.error e, [.extractCall req.input, .optimizeCall extracted])
        | .ok finalText =>
            (synthesize finalText req.voice req.rate,
             [.extractCall req.input, .optimizeCall extracted,
              .synthCall finalText req.voice req.rate])
      else
        (synthesize extracted req.voice req.rate,
         [.extractCall req.input, .synthCall extracted req.voice req.rate])

/-- Modelled from the spec: the end-to-end conversion (`service.py` /
`app.py`, absent from the source tree; spec §4.4, §7): extraction,
optional optimization, then synthesis with its file write, stopping at
the first failure.  Returns the result together with the file writes
performed. -/
def runPipeline (web : String → Option String)
    (optimizer : String → Except PipelineError String)
    (svc : String → String → Int → Except String AudioBytes)
    (outputDir : String) (requestId : Nat) (req : ConversionRequest) :
    Except PipelineError String × List FileWrite :=
  match extractText web req.input with
  | .error e => (.error e, [])
  | .ok extracted =>
      match (if req.optimize then optimizer extracted else .ok extracted) with
      | .error e => (.error e, [])
      | .ok finalText =>
          synthesizeAudio svc outputDir requestId finalText req.voice req.rate

/-- The audio artifact offered to the user for playback/download
(spec §7): the output path on success, nothing on failure. -/
def offeredAudio (res : Except PipelineError String) : Option String :=
  match res with
  | .ok p => some p
  | .error _ => none

/-- The environment configuration the application reads (spec §6): the
speech-service key and region, and the language-model endpoint and key
used when optimization is enabled.  `none` models an unset variable. -/
structure EnvConfig where
  azureSpeechKey : Option String
  azureSpeechRegion : Option String
  llmEndpoint : Option String
  llmKey : Option String
  deriving DecidableEq

/-- The credentials once validated: speech key, speech region, and — when
optimization is enabled — the language-model endpoint and key. -/
structure Credentials where
  speechKey : String
  speechRegion : String
  llm : Option (String × String)
  deriving DecidableEq

/-- Modelled from the spec: credential loading (spec §6: credentials are
read from environment configuration and "absence of required credentials
must fail fast with a clear configuration error before attempting network
calls").  The language-model endpoint/key are required only when
optimization is enabled. -/
def loadConfig (env : EnvConfig) (optimize : Bool) :
    Except PipelineError Credentials :=
  match env.azureSpeechKey with
  | none => .error (.configurationError "missing speech-service key")
  | some k =>
      match env.azureSpeechRegion with
      | none => .error (.configurationError "missing speech-service region")
      | some r =>
          if optimize then
            match env.llmEndpoint with
            | none =>
                .error (.configurationError "missing language-model endpoint")
            | some ep =>
                match env.llmKey with
                | none =>
                    .error (.configurationError "missing language-model key")
                | some lk => .ok ⟨k, r, some (ep, lk)⟩
          else .ok ⟨k, r, none⟩

/-- An outbound network call to an external service. -/
inductive NetworkCall
  | fetchUrl (u : String)
  | languageModel (text : String)
  | speechService (text voice : String) (rate : Int)
  deriving DecidableEq

/-- The outbound network calls a pipeline step performs (spec §4.1–§4.3:
one fetch for URL input, one language-model request per optimization, one
speech-service request per synthesis). -/
def PipelineEvent.networkCalls : PipelineEvent → List NetworkCall
  | .extractCall (.url u) => [.fetchUrl u]
  | .extractCall _ => []
  | .optimizeCall t => [.languageModel t]
  | .synthCall t v r => [.speechService t v r]

/-- Modelled from the spec: the application run (`app.py`, absent from
the source tree; spec §6, §7).  Credentials are validated first; only
when they are present does the pipeline run and issue network calls.
Returns the result together with every outbound network call made. -/
def runApp (env : EnvConfig) (web : String → Option String)
    (optimizer : String → Except PipelineError String)
    (synthesize : String → String → Int → Except PipelineError String)
    (req : ConversionRequest) :
    Except PipelineError String × List NetworkCall :=
  match loadConfig env req.optimize with
  | .error e => (.error e, [])
  | .ok _ =>
      let run := orchestrate (extractText web) optimizer synthesize req
      (run.1, run.2.flatMap PipelineEvent.networkCalls)

/-- A required credential is absent from the environment for a request
with the given optimize flag (spec §6). -/
def missingCredential (env : EnvConfig) (optimize : Bool) : Prop :=
  env.azureSpeechKey = none ∨ env.azureSpeechRegion = none ∨
    (optimize = true ∧ (env.llmEndpoint = none ∨ env.llmKey = none))

/- ## Helper lemmas -/

theorem digitChar_injOn (a b : Nat) (ha : a < 10) (hb : b < 10)
    (h : digitChar a = digitChar b) : a = b := by
  interval_cases a <;> interval_cases b <;>
    first
      | rfl
      | exact absurd h (by decide)

theorem map_digitChar_injOn (l₁ l₂ : List Nat)
    (h₁ : ∀ x ∈ l₁, x < 10) (h₂ : ∀ x ∈ l₂, x < 10)
    (h : l₁.map digitChar = l₂.map digitChar) : l₁ = l₂ := by
  induction l₁ generalizing l₂ with
  | nil => cases l₂ with
    | nil => rfl
    | cons b t => simp at h
  | cons a t ih =>
      cases l₂ with
      | nil => simp at h
      | cons b t' =>
          simp only [List.map_cons, List.cons.injEq] at h
          have hab : a = b :=
            digitChar_injOn a b (h₁ a (List.mem_cons_self a t))
              (h₂ b (List.mem_cons_self b t')) h.1
          have ht : t = t' :=
            ih t' (fun x hx => h₁ x (List.mem_cons_of_mem a hx))
              (fun x hx => h₂ x (List.mem_cons_of_mem b hx)) h.2
          rw [hab, ht]

theorem string_data_ext (s t : String) (h : s.data = t.data) : s = t := by
  cases s
  cases t
  exact congrArg String.mk h

theorem decimalString_injective (a b : Nat)
    (h : decimalString a = decimalString b) : a = b := by
  have hdata := congrArg String.data h
  have hmap :
      (Nat.digits 10 a).reverse.map digitChar =
        (Nat.digits 10 b).reverse.map digitChar := hdata
  have hrev :
      (Nat.digits 10 a).reverse = (Nat.digits 10 b).reverse :=
    map_digitChar_injOn _ _
      (fun x hx =>
        Nat.digits_lt_base (by norm_num) (List.mem_reverse.mp hx))
      (fun x hx =>
        Nat.digits_lt_base (by norm_num) (List.mem_reverse.mp hx))
      hmap
  have hdig : Nat.digits 10 a = Nat.digits 10 b := List.reverse_inj.mp hrev
  have h2 := congrArg (Nat.ofDigits 10) hdig
  rwa [Nat.ofDigits_digits, Nat.ofDigits_digits] at h2

theorem audioFileName_injective (a b : Nat)
    (h : audioFileName a = audioFileName b) : a = b := by
  have hdata := congrArg String.data h
  simp only [audioFileName, String.data_append] at hdata
  rw [List.append_assoc, List.append_assoc] at hdata
  have hmid :=
    List.append_cancel_right (List.append_cancel_left hdata)
  exact decimalString_injective a b (string_data_ext _ _ hmid)

theorem extractText_ok_ne_empty (web : String → Option String)
    (p : InputPayload) (t : String) (h : extractText web p = .ok t) :
    t ≠ "" := by
  cases p with
  | rawText s =>
      by_cases hs : s = "" <;> simp [extractText, hs] at h <;> simp_all
  | pdf f =>
      cases f with
      | corrupt => simp [extractText] at h
      | pages ps =>
          by_cases hs : String.join ps = "" <;>
            simp [extractText, hs] at h <;> simp_all
  | url u =>
      cases hw : web u with
      | none => simp [extractText, hw] at h
      | some body =>
          by_cases hb : body = "" <;>
            simp [extractText, hw, hb] at h <;> simp_all

theorem wellFormed_extract_ok (web : String → Option String)
    (p : InputPayload) (h : wellFormedInput web p = true) :
    ∃ t, extractText web p = .ok t ∧ t ≠ "" := by
  cases p with
  | rawText s =>
      simp [wellFormedInput] at h
      exact ⟨s, by simp [extractText, h], h⟩
  | pdf f =>
      cases f with
      | corrupt => simp [wellFormedInput] at h
      | pages ps =>
          simp [wellFormedInput] at h
          exact ⟨String.join ps, by simp [extractText, h], h⟩
  | url u =>
      cases hw : web u with
      | none => simp [wellFormedInput, hw] at h
      | some body =>
          simp [wellFormedInput, hw] at h
          exact ⟨body, by simp [extractText, hw, h], h⟩

theorem malformed_extract_error (web : String → Option String)
    (p : InputPayload) (h : wellFormedInput web p = false) :
    ∃ msg, extractText web p = .error (.extractionError msg) := by
  cases p with
  | rawText s =>
      simp [wellFormedInput] at h
      exact ⟨"empty text input", by simp [extractText, h]⟩
  | pdf f =>
      cases f with
      | corrupt => exact ⟨"corrupt PDF bytes", rfl⟩
      | pages ps =>
          simp [wellFormedInput] at h
          exact ⟨"no extractable text in PDF", by simp [extractText, h]⟩
  | url u =>
      cases hw : web u with
      | none => exact ⟨"unreachable URL", by simp [extractText, hw]⟩
      | some body =>
          simp [wellFormedInput, hw] at h
          exact ⟨"no textual content", by simp [extractText, hw, h]⟩

theorem loadConfig_missing (env : EnvConfig) (optimize : Bool)
    (h : missingCredential env optimize) :
    ∃ msg, loadConfig env optimize = .error (.configurationError msg) := by
  rcases h with hk | hr | ⟨ho, he | hke⟩
  · exact ⟨"missing speech-service key", by simp [loadConfig, hk]⟩
  · cases hk : env.azureSpeechKey with
    | none => exact ⟨"missing speech-service key", by simp [loadConfig, hk]⟩
    | some k =>
        exact ⟨"missing speech-service region", by simp [loadConfig, hk, hr]⟩
  · cases hk : env.azureSpeechKey with
    | none => exact ⟨"missing speech-service key", by simp [loadConfig, hk]⟩
    | some k =>
        cases hr : env.azureSpeechRegion with
        | none =>
            exact ⟨"missing speech-service region", by simp [loadConfig, hk, hr]⟩
        | some r =>
            exact ⟨"missing language-model endpoint",
              by simp [loadConfig, hk, hr, ho, he]⟩
  · cases hk : env.azureSpeechKey with
    | none => exact ⟨"missing speech-service key", by simp [loadConfig, hk]⟩
    | some k =>
        cases hr : env.azureSpeechRegion with
        | none =>
            exact ⟨"missing speech-service region", by simp [loadConfig, hk, hr]⟩
        | some r =>
            cases he : env.llmEndpoint with
            | none =>
                exact ⟨"missing language-model endpoint",
                  by simp [loadConfig, hk, hr, ho, he]⟩
            | some ep =>
                exact ⟨"missing language-model key",
                  by simp [loadConfig, hk, hr, ho, he, hke]⟩

theorem synthCall_mem (E : InputPayload → Except PipelineError String)
    (O : String → Except PipelineError String)
    (S : String → String → Int → Except PipelineError String)
    (req : ConversionRequest) (t v : String) (r : Int)
    (h : PipelineEvent.synthCall t v r ∈ (orchestrate E O S req).2) :
    v = req.voice ∧ r = req.rate ∧
      ∃ t₀, E req.input = .ok t₀ ∧
        (req.optimize = false → t = t₀) ∧
        (req.optimize = true → O t₀ = .ok t) := by
  cases hE : E req.input with
  | error e => simp [orchestrate, hE] at h
  | ok t₀ =>
      cases hopt : req.optimize with
      | false =>
          simp [orchestrate, hE, hopt] at h
          obtain ⟨ht, hv, hr⟩ := h
          exact ⟨hv, hr, t₀, rfl, fun _ => ht, fun hc => by simp at hc⟩
      | true =>
          cases hO : O t₀ with
          | error e => simp [orchestrate, hE, hopt, hO] at h
          | ok t₁ =>
              simp [orchestrate, hE, hopt, hO] at h
              obtain ⟨ht, hv, hr⟩ := h
              exact ⟨hv, hr, t₀, rfl, fun hc => by simp at hc,
                fun _ => by rw [hO, ht]⟩

/- ## Claim theorems -/

/-- C9: The only synthesis code in the source takes no user
parameters: whatever the environment, the call it issues uses the fixed
voice `en-US-JennyNeural`, the fixed text `This is a test of Azure TTS.`,
the fixed output file name `output.wav`, and sets no speech rate; in
particular the output file name does not vary between runs. -/
theorem notebook_synth_call_fixed :
    ∀ env : NotebookEnv,
      notebookSynthCall env =
        { text := "This is a test of Azure TTS."
          voice := some "en-US-JennyNeural"
          rate := none
          outputFile := "output.wav" } := by
  intro env
  rfl

/-- C10: The notebook discards the outcome of the speech call: for
any two outcomes of `speak_text_async(...).get()` — including a
cancellation — the cell finishes identically, raising no error, and the
(possibly empty) `output.wav` is left on disk either way. -/
theorem notebook_discards_synth_outcome :
    ∀ r₁ r₂ : SynthOutcome,
      notebookCell r₁ = notebookCell r₂ ∧
      notebookCell r₁ = .ok { filesOnDisk := ["output.wav"] } := by
  intro r₁ r₂
  exact ⟨rfl, rfl⟩

/-- C1: Whenever a required credential is absent (the speech-service
key or region, or, when optimization is enabled, the language-model
endpoint/key), the application fails with a `configurationError` and
issues no outbound network call: no request reaches any cloud service. -/
theorem missing_credentials_no_network (env : EnvConfig)
    (web : String → Option String)
    (optimizer : String → Except PipelineError String)
    (synthesize : String → String → Int → Except PipelineError String)
    (req : ConversionRequest)
    (h : missingCredential env req.optimize) :
    ∃ msg,
      (runApp env web optimizer synthesize req).1 =
        Except.error (PipelineError.configurationError msg) ∧
      (runApp env web optimizer synthesize req).2 = [] := by
  obtain ⟨msg, hc⟩ := loadConfig_missing env req.optimize h
  exact ⟨msg, by simp [runApp, hc], by simp [runApp, hc]⟩

/-- Witness for the missing-credential theorem at a concrete environment
with no speech key. -/
theorem missing_credentials_no_network_witness :
    (runApp ⟨none, some "westus", none, none⟩ (fun _ => none)
        (fun s => Except.ok s) (fun _ _ _ => Except.ok "out.wav")
        ⟨InputPayload.rawText "hi", false, "en-US-JennyNeural", 0⟩).1 =
      Except.error
        (PipelineError.configurationError "missing speech-service key") ∧
    (runApp ⟨none, some "westus", none, none⟩ (fun _ => none)
        (fun s => Except.ok s) (fun _ _ _ => Except.ok "out.wav")
        ⟨InputPayload.rawText "hi", false, "en-US-JennyNeural", 0⟩).2 = [] := by
  obtain ⟨msg, h1, h2⟩ :=
    missing_credentials_no_network ⟨none, some "westus", none, none⟩
      (fun _ => none) (fun s => Except.ok s) (fun _ _ _ => Except.ok "out.wav")
      ⟨InputPayload.rawText "hi", false, "en-US-JennyNeural", 0⟩ (Or.inl rfl)
  exact ⟨rfl, h2⟩

/-- C2: The Orchestration Service calls the Extractor, then — only
when the optimize flag is set — the Optimizer, then the Synthesizer, in
that fixed sequence, each step running exactly once up to the first
failure; it returns the synthesizer's output path or propagates the first
failure, and when the components fail with their designated error kinds,
the propagated error's stage tag names the step that failed last. -/
theorem orchestration_fixed_sequence
    (E : InputPayload → Except PipelineError String)
    (O : String → Except PipelineError String)
    (S : String → String → Int → Except PipelineError String)
    (req : ConversionRequest) :
    ((orchestrate E O S req).2.map PipelineEvent.eventStage =
      match E req.input with
      | .error _ => [Stage.extraction]
      | .ok t =>
          if req.optimize then
            match O t with
            | .error _ => [Stage.extraction, Stage.optimization]
            | .ok _ =>
                [Stage.extraction, Stage.optimization, Stage.synthesis]
          else [Stage.extraction, Stage.synthesis]) ∧
    ((orchestrate E O S req).1 =
      (E req.input).bind fun t =>
        (if req.optimize then O t else .ok t).bind fun t₂ =>
          S t₂ req.voice req.rate) ∧
    ((∀ i e, E i = .error e → e.stage = Stage.extraction) →
     (∀ s e, O s = .error e → e.stage = Stage.optimization) →
     (∀ t v r e, S t v r = .error e → e.stage = Stage.synthesis) →
     ∀ e, (orchestrate E O S req).1 = .error e →
       ((orchestrate E O S req).2.map PipelineEvent.eventStage).getLast? =
         some e.stage) := by
  cases hE : E req.input with
  | error e =>
      refine ⟨by simp [orchestrate, hE, PipelineEvent.eventStage],
        by simp [orchestrate, hE, Except.bind], ?_⟩
      intro hEk _ _ e' he'
      simp [orchestrate, hE] at he'
      simp [orchestrate, hE, ← he', hEk req.input e hE,
        PipelineEvent.eventStage]
  | ok t₀ =>
      cases hopt : req.optimize with
      | false =>
          refine ⟨by simp [orchestrate, hE, hopt, PipelineEvent.eventStage],
            by simp [orchestrate, hE, hopt, Except.bind], ?_⟩
          intro _ _ hSk e' he'
          simp [orchestrate, hE, hopt] at he'
          simp [orchestrate, hE, hopt, hSk t₀ req.voice req.rate e' he',
            PipelineEvent.eventStage]
      | true =>
          cases hO : O t₀ with
          | error e =>
              refine ⟨by simp [orchestrate, hE, hopt, hO,
                  PipelineEvent.eventStage],
                by simp [orchestrate, hE, hopt, hO, Except.bind], ?_⟩
              intro _ hOk _ e' he'
              simp [orchestrate, hE, hopt, hO] at he'
              simp [orchestrate, hE, hopt, hO, ← he', hOk t₀ e hO,
                PipelineEvent.eventStage]
          | ok t₁ =>
              refine ⟨by simp [orchestrate, hE, hopt, hO,
                  PipelineEvent.eventStage],
                by simp [orchestrate, hE, hopt, hO, Except.bind], ?_⟩
              intro _ _ hSk e' he'
              simp [orchestrate, hE, hopt, hO] at he'
              simp [orchestrate, hE, hopt, hO,
                hSk t₁ req.voice req.rate e' he', PipelineEvent.eventStage]

/-- Witness for the orchestration-sequence theorem: concrete components
where synthesis fails, exercising the stage tagging. -/
theorem orchestration_fixed_sequence_witness :
    (orchestrate (fun _ => Except.ok "hello") (fun s => Except.ok s)
        (fun _ _ _ =>
          Except.error (PipelineError.synthesisError "service down"))
        ⟨InputPayload.rawText "hi", true, "en-US-JennyNeural", 0⟩).1 =
      Except.error (PipelineError.synthesisError "service down") ∧
    ((orchestrate (fun _ => Except.ok "hello") (fun s => Except.ok s)
        (fun _ _ _ =>
          Except.error (PipelineError.synthesisError "service down"))
        ⟨InputPayload.rawText "hi", true, "en-US-JennyNeural", 0⟩).2.map
          PipelineEvent.eventStage).getLast? = some Stage.synthesis := by
  have h :=
    orchestration_fixed_sequence (fun _ => Except.ok "hello")
      (fun s => Except.ok s)
      (fun _ _ _ =>
        Except.error (PipelineError.synthesisError "service down"))
      ⟨InputPayload.rawText "hi", true, "en-US-JennyNeural", 0⟩
  refine ⟨h.2.1, ?_⟩
  exact h.2.2 (fun i e he => Except.noConfusion he)
    (fun s e he => Except.noConfusion he)
    (fun t v r e he => by injection he with h₁; subst h₁; rfl)
    (PipelineError.synthesisError "service down") rfl

/-- C3: Skipping optimization is the identity transform on the
extracted text: when the optimize flag is not set, the text handed to the
Synthesizer equals the extracted text verbatim, the end-to-end result is
the synthesis of the raw extracted text, and it coincides with running
the pipeline with an identity optimizer. -/
theorem skip_optimization_identity
    (E : InputPayload → Except PipelineError String)
    (O : String → Except PipelineError String)
    (S : String → String → Int → Except PipelineError String)
    (input : InputPayload) (voice : String) (rate : Int) :
    ((orchestrate E O S ⟨input, false, voice, rate⟩).1 =
      (E input).bind fun t => S t voice rate) ∧
    (∀ t v r, PipelineEvent.synthCall t v r ∈
        (orchestrate E O S ⟨input, false, voice, rate⟩).2 →
      E input = .ok t) ∧
    ((orchestrate E O S ⟨input, false, voice, rate⟩).1 =
      (orchestrate E (fun t => .ok t) S ⟨input, true, voice, rate⟩).1) := by
  refine ⟨?_, ?_, ?_⟩
  · cases hE : E input with
    | error e => simp [orchestrate, hE, Except.bind]
    | ok t₀ => simp [orchestrate, hE, Except.bind]
  · intro t v r hmem
    obtain ⟨_, _, t₀, hE, hid, _⟩ :=
      synthCall_mem E O S ⟨input, false, voice, rate⟩ t v r hmem
    rw [hE, hid rfl]
  · cases hE : E input with
    | error e => simp [orchestrate, hE]
    | ok t₀ => simp [orchestrate, hE]

/-- Witness for the skip-optimization theorem at concrete components. -/
theorem skip_optimization_identity_witness :
    (orchestrate (fun _ => Except.ok "text")
        (fun _ => Except.error (PipelineError.externalServiceError "down"))
        (fun t _ _ => Except.ok ("file-for-" ++ t))
        ⟨InputPayload.rawText "hi", false, "en-US-JennyNeural", 0⟩).1 =
      Except.ok "file-for-text" ∧
    (Except.ok "text" : Except PipelineError String) = Except.ok "text" := by
  have h :=
    skip_optimization_identity (fun _ => Except.ok "text")
      (fun _ => Except.error (PipelineError.externalServiceError "down"))
      (fun t _ _ => Except.ok ("file-for-" ++ t))
      (InputPayload.rawText "hi") "en-US-JennyNeural" 0
  refine ⟨h.1, ?_⟩
  exact h.2.1 "text" "en-US-JennyNeural" 0 (by simp [orchestrate])

/-- C4: A request that fails at any stage produces no audio: no file
write is performed and no artifact is offered to the user; in particular
malformed input fails with an `extractionError` and writes nothing. -/
theorem failure_produces_no_audio (web : String → Option String)
    (optimizer : String → Except PipelineError String)
    (svc : String → String → Int → Except String AudioBytes)
    (dir : String) (id : Nat) (req : ConversionRequest) :
    (∀ e, (runPipeline web optimizer svc dir id req).1 = Except.error e →
        (runPipeline web optimizer svc dir id req).2 = [] ∧
        offeredAudio (runPipeline web optimizer svc dir id req).1 = none) ∧
    (wellFormedInput web req.input = false →
        ∃ msg,
          (runPipeline web optimizer svc dir id req).1 =
            Except.error (PipelineError.extractionError msg) ∧
          (runPipeline web optimizer svc dir id req).2 = []) := by
  constructor
  · intro e he
    cases hE : extractText web req.input with
    | error e' => simp [runPipeline, hE, offeredAudio]
    | ok t₀ =>
        cases hM : (if req.optimize then optimizer t₀ else .ok t₀) with
        | error e' => simp [runPipeline, hE, hM, offeredAudio]
        | ok t₁ =>
            cases hS : svc t₁ req.voice req.rate with
            | error msg =>
                simp [runPipeline, hE, hM, synthesizeAudio, hS, offeredAudio]
            | ok bytes =>
                simp [runPipeline, hE, hM, synthesizeAudio, hS] at he
  · intro hwf
    obtain ⟨msg, hext⟩ := malformed_extract_error web req.input hwf
    exact ⟨msg, by simp [runPipeline, hext], by simp [runPipeline, hext]⟩

/-- Witness for the no-audio-on-failure theorem: an unreachable URL. -/
theorem failure_produces_no_audio_witness :
    (runPipeline (fun _ => none) (fun s => Except.ok s)
        (fun _ _ _ => Except.ok [0])
        "audio_output" 0
        ⟨InputPayload.url "http://invalid.example/notfound", false,
          "en-US-JennyNeural", 0⟩).2 = [] ∧
    offeredAudio
      (runPipeline (fun _ => none) (fun s => Except.ok s)
        (fun _ _ _ => Except.ok [0])
        "audio_output" 0
        ⟨InputPayload.url "http://invalid.example/notfound", false,
          "en-US-JennyNeural", 0⟩).1 = none ∧
    (∃ msg,
      (runPipeline (fun _ => none) (fun s => Except.ok s)
        (fun _ _ _ => Except.ok [0])
        "audio_output" 0
        ⟨InputPayload.url "http://invalid.example/notfound", false,
          "en-US-JennyNeural", 0⟩).1 =
        Except.error (PipelineError.extractionError msg)) := by
  have h :=
    failure_produces_no_audio (fun _ => none) (fun s => Except.ok s)
      (fun _ _ _ => Except.ok [0]) "audio_output" 0
      ⟨InputPayload.url "http://invalid.example/notfound", false,
        "en-US-JennyNeural", 0⟩
  obtain ⟨h1, h2⟩ :=
    h.1 (PipelineError.extractionError "unreachable URL") rfl
  obtain ⟨msg, hmsg, _⟩ := h.2 rfl
  exact ⟨h1, h2, msg, hmsg⟩

/-- C5: The Speech Synthesizer, on any input on which the speech
service succeeds, writes exactly the received audio bytes to a file under
the designated output directory and returns that file's path; on a
service/auth/network failure it fails with a `synthesisError` and writes
nothing. -/
theorem synthesizeAudio_contract
    (svc : String → String → Int → Except String AudioBytes)
    (dir : String) (id : Nat) (text voice : String) (rate : Int) :
    (∀ bytes, svc text voice rate = Except.ok bytes →
        synthesizeAudio svc dir id text voice rate =
          (Except.ok (dir ++ "/" ++ audioFileName id),
           [⟨dir ++ "/" ++ audioFileName id, bytes⟩])) ∧
    (∀ msg, svc text voice rate = Except.error msg →
        synthesizeAudio svc dir id text voice rate =
          (Except.error (PipelineError.synthesisError msg), [])) ∧
    (∃ rest, dir ++ "/" ++ audioFileName id = dir ++ "/" ++ rest) := by
  refine ⟨?_, ?_, audioFileName id, rfl⟩
  · intro bytes hb
    simp [synthesizeAudio, hb]
  · intro msg hm
    simp [synthesizeAudio, hm]

/-- Witness for the synthesizer contract at a concrete service. -/
theorem synthesizeAudio_contract_witness :
    synthesizeAudio (fun _ _ _ => Except.ok [1, 2, 3]) "audio_output" 7
        "hello" "en-US-JennyNeural" 0 =
      (Except.ok ("audio_output" ++ "/" ++ audioFileName 7),
       [⟨"audio_output" ++ "/" ++ audioFileName 7, [1, 2, 3]⟩]) ∧
    synthesizeAudio (fun _ _ _ => Except.error "quota exceeded")
        "audio_output" 7 "hello" "en-US-JennyNeural" 0 =
      (Except.error (PipelineError.synthesisError "quota exceeded"), []) := by
  have h₁ :=
    synthesizeAudio_contract (fun _ _ _ => Except.ok [1, 2, 3])
      "audio_output" 7 "hello" "en-US-JennyNeural" 0
  have h₂ :=
    synthesizeAudio_contract (fun _ _ _ => Except.error "quota exceeded")
      "audio_output" 7 "hello" "en-US-JennyNeural" 0
  exact ⟨h₁.1 [1, 2, 3] rfl, h₂.2.1 "quota exceeded" rfl⟩

/-- C6: The user-chosen voice identifier and speech-rate scalar are
passed through unchanged: every synthesis step the orchestration invokes,
and every speech-service network request the application issues, uses
exactly the request's voice and rate. -/
theorem voice_rate_passthrough
    (E : InputPayload → Except PipelineError String)
    (O : String → Except PipelineError String)
    (S : String → String → Int → Except PipelineError String)
    (env : EnvConfig) (web : String → Option String)
    (req : ConversionRequest) :
    (∀ t v r, PipelineEvent.synthCall t v r ∈ (orchestrate E O S req).2 →
        v = req.voice ∧ r = req.rate) ∧
    (∀ t v r, NetworkCall.speechService t v r ∈ (runApp env web O S req).2 →
        v = req.voice ∧ r = req.rate) := by
  constructor
  · intro t v r hmem
    obtain ⟨hv, hr, _⟩ := synthCall_mem E O S req t v r hmem
    exact ⟨hv, hr⟩
  · intro t v r hmem
    cases hc : loadConfig env req.optimize with
    | error e => simp [runApp, hc] at hmem
    | ok creds =>
        simp only [runApp, hc, List.mem_flatMap] at hmem
        obtain ⟨ev, hev, hcall⟩ := hmem
        cases ev with
        | extractCall i =>
            cases i <;> simp [PipelineEvent.networkCalls] at hcall
        | optimizeCall s => simp [PipelineEvent.networkCalls] at hcall
        | synthCall t' v' r' =>
            simp [PipelineEvent.networkCalls] at hcall
            obtain ⟨ht, hv, hr⟩ := hcall
            obtain ⟨hv', hr', _⟩ :=
              synthCall_mem (extractText web) O S req t' v' r' hev
            exact ⟨hv ▸ hv', hr ▸ hr'⟩

/-- Witness for the voice/rate pass-through theorem at a concrete
request. -/
theorem voice_rate_passthrough_witness :
    ("en-US-JennyNeural" : String) =
      (⟨InputPayload.rawText "hi", false, "en-US-JennyNeural", 5⟩ :
        ConversionRequest).voice ∧
    (5 : Int) =
      (⟨InputPayload.rawText "hi", false, "en-US-JennyNeural", 5⟩ :
        ConversionRequest).rate := by
  have h :=
    voice_rate_passthrough (fun _ => Except.ok "text")
      (fun s => Except.ok s) (fun _ _ _ => Except.ok "out.wav")
      ⟨some "k", some "r", none, none⟩ (fun _ => none)
      ⟨InputPayload.rawText "hi", false, "en-US-JennyNeural", 5⟩
  exact h.1 "text" "en-US-JennyNeural" 5 (by simp [orchestrate])

/-- C7: Distinct requests write distinct file names into the shared
output directory: the generated per-request file name, and hence the full
output path, differs between any two distinct request identifiers, so no
request overwrites another's output file. -/
theorem distinct_output_file_names (dir : String) (id₁ id₂ : Nat)
    (h : id₁ ≠ id₂) :
    audioFileName id₁ ≠ audioFileName id₂ ∧
    dir ++ "/" ++ audioFileName id₁ ≠ dir ++ "/" ++ audioFileName id₂ := by
  constructor
  · intro he
    exact h (audioFileName_injective id₁ id₂ he)
  · intro he
    have hd := congrArg String.data he
    simp only [String.data_append] at hd
    rw [List.append_assoc, List.append_assoc] at hd
    exact h (audioFileName_injective id₁ id₂
      (string_data_ext _ _
        (List.append_cancel_left (List.append_cancel_left hd))))

/-- Witness for the distinct-file-names theorem at concrete request
identifiers. -/
theorem distinct_output_file_names_witness :
    audioFileName 0 ≠ audioFileName 1 ∧
    "audio_output" ++ "/" ++ audioFileName 0 ≠
      "audio_output" ++ "/" ++ audioFileName 1 :=
  distinct_output_file_names "audio_output" 0 1 (by decide)

/-- C8 (amended): extraction on any well-formed input yields non-empty
text, and synthesis is only attempted on non-empty text in every
execution in which optimization is skipped or the optimizer returns a
non-empty rewrite.  The unconditional claim fails: nothing constrains the
remote language model's output, and the orchestration passes it to
synthesis unchecked, so an optimizer returning an empty rewrite makes the
pipeline synthesize the empty string (see the counterexample below). -/
theorem synthesis_text_nonempty (web : String → Option String)
    (O : String → Except PipelineError String)
    (S : String → String → Int → Except PipelineError String)
    (req : ConversionRequest)
    (hO : ∀ s t, O s = Except.ok t → t ≠ "") :
    (∀ t v r, PipelineEvent.synthCall t v r ∈
        (orchestrate (extractText web) O S req).2 → t ≠ "") ∧
    (∀ p, wellFormedInput web p = true →
        ∃ t, extractText web p = Except.ok t ∧ t ≠ "") := by
  constructor
  · intro t v r hmem
    obtain ⟨_, _, t₀, hE, hskip, hopt⟩ :=
      synthCall_mem (extractText web) O S req t v r hmem
    cases hb : req.optimize with
    | false =>
        rw [hskip hb]
        exact extractText_ok_ne_empty web req.input t₀ hE
    | true => exact hO t₀ t (hopt hb)
  · exact wellFormed_extract_ok web

/-- Witness for the non-empty-synthesis theorem at a concrete pipeline
run. -/
theorem synthesis_text_nonempty_witness :
    extractText (fun _ => none) (InputPayload.rawText "hi") =
      Except.ok "hi" ∧ ("hi" : String) ≠ "" := by
  have h :=
    synthesis_text_nonempty (fun _ => none) (fun _ => Except.ok "x")
      (fun _ _ _ => Except.error (PipelineError.synthesisError "down"))
      ⟨InputPayload.rawText "hi", false, "en-US-JennyNeural", 0⟩
      (fun s t ht => by injection ht with h₁; subst h₁; decide)
  obtain ⟨t, ht, hne⟩ := h.2 (InputPayload.rawText "hi") (by decide)
  have hth : t = "hi" := by
    have h2 : Except.ok t = (Except.ok "hi" : Except PipelineError String) :=
      ht.symm.trans rfl
    injection h2
  subst hth
  exact ⟨ht, hne⟩

/-- Counterexample to the unconditional form of C8: with optimization
enabled and an optimizer that returns an empty rewrite, the orchestration
invokes the Synthesizer on the empty string. -/
theorem synthesis_empty_text_counterexample :
    PipelineEvent.synthCall "" "en-US-JennyNeural" 0 ∈
      (orchestrate (extractText (fun _ => none)) (fun _ => Except.ok "")
        (fun _ _ _ => Except.error (PipelineError.synthesisError "down"))
        ⟨InputPayload.rawText "hi", true, "en-US-JennyNeural", 0⟩).2 := by
  simp [orchestrate, extractText]
